import Mathlib

/-!
Shallow embedding of `src/weather/views.py` (weather_backend).

The two Django REST views `CurrentWeatherView.get` and `ForecastWeatherView.get`
are modelled as pure Lean functions.  Upstream JSON is modelled by the inductive
type `Json` (numbers as `ℚ`); a Python dict subscript `d['k']` that can raise
`KeyError` is modelled by an `Option`-returning lookup, and raising is the
`none` case, which the views convert into their generic 500 handler exactly as
the `except Exception` clause does in the source.  The Django cache is an
association list of entries carrying an absolute expiry instant (`cache.set`
with `timeout=1800` stores `now + 1800`; `cache.get` treats an entry as absent
once `now` reaches its expiry).  The outcome of `requests.get` is an explicit
parameter of type `UpstreamResult`: it either times out
(`requests.exceptions.Timeout`), fails with another
`requests.exceptions.RequestException` (`networkError`), or returns a status
code and a decoded JSON body.  Each view returns the HTTP response produced,
the cache state after the call, and a flag recording whether the upstream
request was issued.
-/

/-- JSON values as delivered by the upstream weather provider and stored in the
cache.  Numbers are modelled as rationals. -/
inductive Json where
  | null : Json
  | bool : Bool → Json
  | num : ℚ → Json
  | str : String → Json
  | arr : List Json → Json
  | obj : List (String × Json) → Json

/-- First-match lookup in a JSON object's field list, as a Python dict lookup. -/
def Json.lookupField : List (String × Json) → String → Option Json
  | [], _ => none
  | (k, v) :: rest, key => if k = key then some v else Json.lookupField rest key

/-- `d[key]` on a Python dict: `none` models the raised `KeyError` (or the
`TypeError` of subscripting a non-dict). -/
def Json.getMem? : Json → String → Option Json
  | .obj fields, key => Json.lookupField fields key
  | _, _ => none

/-- `d.get(key, default)` on a Python dict: the default is used when the key is
absent; `none` models calling `.get` on a non-dict. -/
def Json.getWithDefault : Json → String → Json → Option Json
  | .obj fields, key, dflt => some ((Json.lookupField fields key).getD dflt)
  | _, _, _ => none

/-- A JSON value usable as a Python number; `none` models the `TypeError`
raised by arithmetic on a non-number. -/
def Json.asNum? : Json → Option ℚ
  | .num q => some q
  | _ => none

/-- A JSON value usable as a Python string; `none` models the `AttributeError`
raised by `.title()` on a non-string. -/
def Json.asStr? : Json → Option String
  | .str s => some s
  | _ => none

/-- A JSON value usable as a Python list; `none` models iterating or indexing
a non-list. -/
def Json.asArr? : Json → Option (List Json)
  | .arr xs => some xs
  | _ => none

/-- Python truthiness of a JSON value (`if cached_data:` in the source). -/
def Json.truthy : Json → Bool
  | .null => false
  | .bool b => b
  | .num q => decide (q ≠ 0)
  | .str s => decide (s ≠ "")
  | .arr xs => !xs.isEmpty
  | .obj fields => !fields.isEmpty

/-- The keys of a JSON object, in order. -/
def Json.keys : Json → List String
  | .obj fields => fields.map Prod.fst
  | _ => []

/-- Python `str.lower()` (ASCII case mapping). -/
def pyLower (s : String) : String :=
  String.mk (s.data.map Char.toLower)

/-- Python `str.strip()`: remove leading and trailing whitespace. -/
def pyStrip (s : String) : String :=
  String.mk ((((s.data.dropWhile Char.isWhitespace).reverse).dropWhile Char.isWhitespace).reverse)

/-- Helper for `pyTitle`: the Boolean records whether the previous character
was alphabetic. -/
def pyTitleAux : Bool → List Char → List Char
  | _, [] => []
  | prevAlpha, c :: rest =>
    (if prevAlpha then c.toLower else c.toUpper) :: pyTitleAux c.isAlpha rest

/-- Python `str.title()`: first letter of each word upper-cased, the rest
lower-cased (ASCII approximation). -/
def pyTitle (s : String) : String :=
  String.mk (pyTitleAux false s.data)

/-- Python 3 `round(q)`: round half to even, returning an integer. -/
def pyRound (q : ℚ) : ℤ :=
  let f : ℤ := q.floor
  if q - f < 1/2 then f
  else if 1/2 < q - f then f + 1
  else if f % 2 = 0 then f else f + 1

/-- Python 3 `round(q, 1)`: round half to even at one decimal place. -/
def pyRound1 (q : ℚ) : ℚ :=
  ((pyRound (q * 10) : ℚ)) / 10

/-- One cache entry of the Django locmem-style cache: key, stored value and
absolute expiry instant. -/
structure CacheEntry where
  key : String
  value : Json
  expiresAt : Nat

/-- `cache.get(key)` at instant `now`: the first entry with this key, provided
it has not expired. -/
def cacheGet (c : List CacheEntry) (now : Nat) (key : String) : Option Json :=
  match c.find? (fun e => e.key == key) with
  | some e => if now < e.expiresAt then some e.value else none
  | none => none

/-- `cache.set(key, v, timeout=1800)` at instant `now`. -/
def cacheSet (c : List CacheEntry) (now : Nat) (key : String) (v : Json) : List CacheEntry :=
  ⟨key, v, now + 1800⟩ :: c

/-- An HTTP response: status code and JSON body. -/
structure Response where
  status : Nat
  body : Json

/-- The error-response shape shared by every failure path in the source. -/
def errBody (message : String) : Json :=
  Json.obj [("success", Json.bool false), ("message", Json.str message)]

/-- Outcome of the `requests.get` call: timeout, another
`requests.exceptions.RequestException` (connection refused, DNS failure, …),
or an HTTP response with decoded JSON body. -/
inductive UpstreamResult where
  | timeout : UpstreamResult
  | networkError : UpstreamResult
  | response : Nat → Json → UpstreamResult

/-- `f'weather_current_{city.lower()}'` -/
def currentKey (city : String) : String :=
  "weather_current_" ++ pyLower city

/-- `f'weather_forecast_{city.lower()}'` -/
def forecastKey (city : String) : String :=
  "weather_forecast_" ++ pyLower city

/-- The fields read from `data['main']` (shared by both views). -/
structure MainFields where
  temp : ℚ
  feels_like : ℚ
  temp_min : ℚ
  temp_max : ℚ
  humidity : Json
  pressure : Json

/-- Reads `m['temp']`, `m['feels_like']`, `m['temp_min']`, `m['temp_max']`
(as numbers, since the source rounds them), `m['humidity']`, `m['pressure']`. -/
def extractMain (m : Json) : Option MainFields := do
  let temp ← (← m.getMem? ("temp")).asNum?
  let feels ← (← m.getMem? ("feels_like")).asNum?
  let tmin ← (← m.getMem? ("temp_min")).asNum?
  let tmax ← (← m.getMem? ("temp_max")).asNum?
  let humidity ← m.getMem? ("humidity")
  let pressure ← m.getMem? ("pressure")
  pure ⟨temp, feels, tmin, tmax, humidity, pressure⟩

/-- The fields read from `data['weather'][0]` (shared by both views). -/
structure WeatherFields where
  description : String
  main : Json
  icon : Json

/-- Reads `d['weather'][0]['description']` (a string, since the source calls
`.title()` on it), `...['main']` and `...['icon']`; fails on a missing key,
a non-list `weather` or an empty list, as the Python indexing would. -/
def extractWeather0 (d : Json) : Option WeatherFields := do
  let weather ← (← d.getMem? ("weather")).asArr?
  let w0 ← weather.head?
  let description ← (← w0.getMem? ("description")).asStr?
  let wMain ← w0.getMem? ("main")
  let icon ← w0.getMem? ("icon")
  pure ⟨description, wMain, icon⟩

/-- Reads `d['coord']['lat']` and `d['coord']['lon']`. -/
def extractCoord (d : Json) : Option (Json × Json) := do
  let coord ← d.getMem? ("coord")
  let lat ← coord.getMem? ("lat")
  let lon ← coord.getMem? ("lon")
  pure (lat, lon)

/-- Reads `d['clouds']['all']`. -/
def extractClouds (d : Json) : Option Json := do
  let cloudsObj ← d.getMem? ("clouds")
  cloudsObj.getMem? ("all")

/-- Reads `d['wind']['speed']` (a number, since the source rounds it) and
`d['wind'].get('deg', 0)`. -/
def extractWind (d : Json) : Option (ℚ × Json) := do
  let wind ← d.getMem? ("wind")
  let speed ← (← wind.getMem? ("speed")).asNum?
  let deg ← wind.getWithDefault ("deg") (Json.num 0)
  pure (speed, deg)

/-- Reads `d['name']`, `d['sys']['country']`, `d['sys']['sunrise']`,
`d['sys']['sunset']`. -/
def extractNameSys (d : Json) : Option (Json × Json × Json × Json) := do
  let name ← d.getMem? ("name")
  let sys ← d.getMem? ("sys")
  let country ← sys.getMem? ("country")
  let sunrise ← sys.getMem? ("sunrise")
  let sunset ← sys.getMem? ("sunset")
  pure (name, country, sunrise, sunset)

/-- The fields read from the upstream current-weather JSON by
`CurrentWeatherView.get`, before assembly into the response dict. -/
structure CurrentFields where
  name : Json
  country : Json
  lat : Json
  lon : Json
  mainF : MainFields
  weatherF : WeatherFields
  wind_speed : ℚ
  wind_deg : Json
  clouds : Json
  visibility : Json
  sunrise : Json
  sunset : Json
  timezone : Json
  dt : Json

/-- Extraction of the upstream fields used by the current-weather response
dict (lines 51–76 of `views.py`); any missing key, wrong type or empty
`weather` array makes the whole extraction fail, exactly as the corresponding
Python exception would (which exception fires first is unobservable: they all
reach the same `except Exception` handler). -/
def extractCurrent (data : Json) : Option CurrentFields := do
  let ns ← extractNameSys data
  let ll ← extractCoord data
  let mainF ← extractMain (← data.getMem? ("main"))
  let weatherF ← extractWeather0 data
  let windF ← extractWind data
  let cloudsAll ← extractClouds data
  let visibility ← data.getWithDefault ("visibility") (Json.num 0)
  let tz ← data.getMem? ("timezone")
  let dt ← data.getMem? ("dt")
  pure ⟨ns.1, ns.2.1, ll.1, ll.2, mainF, weatherF, windF.1, windF.2,
        cloudsAll, visibility, ns.2.2.1, ns.2.2.2, tz, dt⟩

/-- The `weather_data` response dict of `CurrentWeatherView.get`, in source
order, with the source's rounding, title-casing and defaulting applied. -/
def buildCurrent (f : CurrentFields) : Json :=
  Json.obj [
    ("success", Json.bool true),
    ("city", f.name),
    ("country", f.country),
    ("coordinates", Json.obj [("lat", f.lat), ("lon", f.lon)]),
    ("temperature", Json.num ((pyRound f.mainF.temp : ℚ))),
    ("feels_like", Json.num ((pyRound f.mainF.feels_like : ℚ))),
    ("temp_min", Json.num ((pyRound f.mainF.temp_min : ℚ))),
    ("temp_max", Json.num ((pyRound f.mainF.temp_max : ℚ))),
    ("humidity", f.mainF.humidity),
    ("pressure", f.mainF.pressure),
    ("description", Json.str (pyTitle f.weatherF.description)),
    ("main", f.weatherF.main),
    ("icon", f.weatherF.icon),
    ("wind_speed", Json.num (pyRound1 f.wind_speed)),
    ("wind_deg", f.wind_deg),
    ("clouds", f.clouds),
    ("visibility", f.visibility),
    ("sunrise", f.sunrise),
    ("sunset", f.sunset),
    ("timezone", f.timezone),
    ("timestamp", f.dt)
  ]

/-- Normalization of the upstream current-weather body: extraction followed by
assembly; `none` models the exception reaching `except Exception`. -/
def normalizeCurrent (data : Json) : Option Json :=
  (extractCurrent data).map buildCurrent

/-- The fields read from one upstream forecast interval by
`ForecastWeatherView.get` (lines 160–175 of `views.py`). -/
structure ItemFields where
  dt : Json
  dt_txt : Json
  mainF : MainFields
  weatherF : WeatherFields
  wind_speed : ℚ
  clouds : Json
  pop : ℚ

/-- Reads `item['wind']['speed']` (the forecast loop never reads the wind
direction). -/
def extractWindSpeed (d : Json) : Option ℚ := do
  let wind ← d.getMem? ("wind")
  (← wind.getMem? ("speed")).asNum?

/-- Extraction of the upstream fields used for one forecast interval; `pop`
is `item.get('pop', 0)`, required to be a number because the source
multiplies it by 100. -/
def extractItem (item : Json) : Option ItemFields := do
  let dt ← item.getMem? ("dt")
  let dtTxt ← item.getMem? ("dt_txt")
  let mainF ← extractMain (← item.getMem? ("main"))
  let weatherF ← extractWeather0 item
  let speed ← extractWindSpeed item
  let cloudsAll ← extractClouds item
  let pop ← (← item.getWithDefault ("pop") (Json.num 0)).asNum?
  pure ⟨dt, dtTxt, mainF, weatherF, speed, cloudsAll, pop⟩

/-- One entry of the `forecasts` list built by `ForecastWeatherView.get`, in
source order.  Note: no `wind_deg`, no `visibility`, no `sunrise`, no `sunset`,
no `timezone`; `pop` is the upstream fraction multiplied by 100. -/
def buildItem (f : ItemFields) : Json :=
  Json.obj [
    ("datetime", f.dt),
    ("date_text", f.dt_txt),
    ("temperature", Json.num ((pyRound f.mainF.temp : ℚ))),
    ("feels_like", Json.num ((pyRound f.mainF.feels_like : ℚ))),
    ("temp_min", Json.num ((pyRound f.mainF.temp_min : ℚ))),
    ("temp_max", Json.num ((pyRound f.mainF.temp_max : ℚ))),
    ("humidity", f.mainF.humidity),
    ("pressure", f.mainF.pressure),
    ("description", Json.str (pyTitle f.weatherF.description)),
    ("main", f.weatherF.main),
    ("icon", f.weatherF.icon),
    ("wind_speed", Json.num (pyRound1 f.wind_speed)),
    ("clouds", f.clouds),
    ("pop", Json.num (f.pop * 100))
  ]

/-- Normalization of one forecast interval. -/
def normalizeItem (item : Json) : Option Json :=
  (extractItem item).map buildItem

/-- The `for item in data['list']` loop: each interval is normalized in order;
the first failing interval aborts the whole request (its exception reaches
`except Exception`). -/
def normalizeItems : List Json → Option (List Json)
  | [] => some []
  | item :: rest => do
    let j ← normalizeItem item
    let r ← normalizeItems rest
    pure (j :: r)

/-- Normalization of the upstream forecast body: the interval loop runs first
(as in the source), then the city metadata is read and the `forecast_data`
dict is assembled. -/
def normalizeForecast (data : Json) : Option Json := do
  let items ← (← data.getMem? ("list")).asArr?
  let forecasts ← normalizeItems items
  let cityObj ← data.getMem? ("city")
  let name ← cityObj.getMem? ("name")
  let country ← cityObj.getMem? ("country")
  let coord ← cityObj.getMem? ("coord")
  let lat ← coord.getMem? ("lat")
  let lon ← coord.getMem? ("lon")
  pure (Json.obj [
    ("success", Json.bool true),
    ("city", name),
    ("country", country),
    ("coordinates", Json.obj [("lat", lat), ("lon", lon)]),
    ("forecasts", Json.arr forecasts)
  ])

/-- The `try`/`except` part of `CurrentWeatherView.get` (lines 35–116): the
upstream call has been issued, so the call flag is `true` in every branch.
Handlers in source order: 200 (normalize, cache, return), 404, other status,
`Timeout` → 408, `RequestException` → 503, `Exception` → 500. -/
def fetchCurrent (city key : String) (c : List CacheEntry) (now : Nat)
    (up : UpstreamResult) : Response × List CacheEntry × Bool :=
  match up with
  | .timeout => (⟨408, errBody ("Request timeout. Please try again.")⟩, c, true)
  | .networkError => (⟨503, errBody ("Network error. Please check your connection.")⟩, c, true)
  | .response st body =>
    if st = 200 then
      match normalizeCurrent body with
      | some payload => (⟨200, payload⟩, cacheSet c now key payload, true)
      | none => (⟨500, errBody ("An unexpected error occurred")⟩, c, true)
    else if st = 404 then
      (⟨404, errBody ("City \"" ++ city ++ "\" not found")⟩, c, true)
    else
      (⟨500, errBody ("Failed to fetch weather data")⟩, c, true)

/-- The `try`/`except` part of `ForecastWeatherView.get` (lines 142–217).
Unlike `fetchCurrent`, the source has no `RequestException` handler here, so a
network failure falls through to the generic `except Exception` → 500. -/
def fetchForecast (city key : String) (c : List CacheEntry) (now : Nat)
    (up : UpstreamResult) : Response × List CacheEntry × Bool :=
  match up with
  | .timeout => (⟨408, errBody ("Request timeout. Please try again.")⟩, c, true)
  | .networkError => (⟨500, errBody ("An unexpected error occurred")⟩, c, true)
  | .response st body =>
    if st = 200 then
      match normalizeForecast body with
      | some payload => (⟨200, payload⟩, cacheSet c now key payload, true)
      | none => (⟨500, errBody ("An unexpected error occurred")⟩, c, true)
    else if st = 404 then
      (⟨404, errBody ("City \"" ++ city ++ "\" not found")⟩, c, true)
    else
      (⟨500, errBody ("Failed to fetch forecast data")⟩, c, true)

/-- `CurrentWeatherView.get`: the `city` query parameter (absent → `''`) is
stripped; blank → 400 before any cache or upstream interaction; then the cache
is consulted (a truthy cached value is returned directly with no upstream
call); otherwise the upstream call is made. -/
def getCurrent (cityParam : Option String) (c : List CacheEntry) (now : Nat)
    (up : UpstreamResult) : Response × List CacheEntry × Bool :=
  let city := pyStrip (cityParam.getD (""))
  if city = "" then
    (⟨400, errBody ("City parameter is required")⟩, c, false)
  else
    match cacheGet c now (currentKey city) with
    | some cached =>
      if cached.truthy then (⟨200, cached⟩, c, false)
      else fetchCurrent city (currentKey city) c now up
    | none => fetchCurrent city (currentKey city) c now up

/-- `ForecastWeatherView.get`: identical control flow to `getCurrent` with the
forecast key namespace and forecast fetch. -/
def getForecast (cityParam : Option String) (c : List CacheEntry) (now : Nat)
    (up : UpstreamResult) : Response × List CacheEntry × Bool :=
  let city := pyStrip (cityParam.getD (""))
  if city = "" then
    (⟨400, errBody ("City parameter is required")⟩, c, false)
  else
    match cacheGet c now (forecastKey city) with
    | some cached =>
      if cached.truthy then (⟨200, cached⟩, c, false)
      else fetchForecast city (forecastKey city) c now up
    | none => fetchForecast city (forecastKey city) c now up

/-- The HTTP status codes of the service's taxonomy: success, validation,
not-found, timeout, internal/upstream, network. -/
def taxonomyStatuses : List Nat := [200, 400, 404, 408, 500, 503]

/-- Fixture: an upstream current-weather body for London with
`main.temp = 15.6` and `wind.speed = 3.47` (the spec's rounding scenario). -/
def currentSample : Json :=
  Json.obj [
    ("name", Json.str ("London")),
    ("sys", Json.obj [("country", Json.str ("GB")),
                      ("sunrise", Json.num 1700000000), ("sunset", Json.num 1700030000)]),
    ("coord", Json.obj [("lat", Json.num (515/10)), ("lon", Json.num 0)]),
    ("main", Json.obj [("temp", Json.num (156/10)), ("feels_like", Json.num 14),
                       ("temp_min", Json.num 10), ("temp_max", Json.num 20),
                       ("humidity", Json.num 80), ("pressure", Json.num 1012)]),
    ("weather", Json.arr [Json.obj [("description", Json.str ("light rain")),
                                    ("main", Json.str ("Rain")), ("icon", Json.str ("10d"))]]),
    ("wind", Json.obj [("speed", Json.num (347/100))]),
    ("clouds", Json.obj [("all", Json.num 90)]),
    ("timezone", Json.num 0),
    ("dt", Json.num 1700010000)
  ]

/-- Fixture: one upstream forecast interval with `main.temp = 15.6`,
`wind.speed = 3.47` and `pop = 0.42`; it also carries upstream `wind.deg` and
`visibility` fields, which the forecast loop never copies. -/
def itemSample : Json :=
  Json.obj [
    ("dt", Json.num 1700020000),
    ("dt_txt", Json.str ("2023-11-15 03:00:00")),
    ("main", Json.obj [("temp", Json.num (156/10)), ("feels_like", Json.num 14),
                       ("temp_min", Json.num 10), ("temp_max", Json.num 20),
                       ("humidity", Json.num 80), ("pressure", Json.num 1012)]),
    ("weather", Json.arr [Json.obj [("description", Json.str ("light rain")),
                                    ("main", Json.str ("Rain")), ("icon", Json.str ("10d"))]]),
    ("wind", Json.obj [("speed", Json.num (347/100)), ("deg", Json.num 250)]),
    ("visibility", Json.num 10000),
    ("clouds", Json.obj [("all", Json.num 90)]),
    ("pop", Json.num (42/100))
  ]

/-- Fixture: the same forecast interval without the optional `pop` key. -/
def itemSampleNoPop : Json :=
  Json.obj [
    ("dt", Json.num 1700020000),
    ("dt_txt", Json.str ("2023-11-15 03:00:00")),
    ("main", Json.obj [("temp", Json.num (156/10)), ("feels_like", Json.num 14),
                       ("temp_min", Json.num 10), ("temp_max", Json.num 20),
                       ("humidity", Json.num 80), ("pressure", Json.num 1012)]),
    ("weather", Json.arr [Json.obj [("description", Json.str ("light rain")),
                                    ("main", Json.str ("Rain")), ("icon", Json.str ("10d"))]]),
    ("wind", Json.obj [("speed", Json.num (347/100))]),
    ("clouds", Json.obj [("all", Json.num 90)])
  ]

/-- The fields `extractItem` reads from `itemSample`. -/
def itemSampleFields : ItemFields :=
  ⟨Json.num 1700020000, Json.str ("2023-11-15 03:00:00"),
   ⟨156/10, 14, 10, 20, Json.num 80, Json.num 1012⟩,
   ⟨"light rain", Json.str ("Rain"), Json.str ("10d")⟩,
   347/100, Json.num 90, 42/100⟩

/-- Fixture: an upstream forecast body for Paris carrying 40 interval
entries (`cnt = 40`, five days of three-hour intervals). -/
def forecastSample : Json :=
  Json.obj [
    ("list", Json.arr (List.replicate 40 itemSample)),
    ("city", Json.obj [
      ("name", Json.str ("Paris")),
      ("country", Json.str ("FR")),
      ("coord", Json.obj [("lat", Json.num (4885/100)), ("lon", Json.num (235/100))])
    ])
  ]

/-! ### Helper lemmas -/

/-- String append concatenates the underlying character lists. -/
theorem stringData_append (s t : String) : (s ++ t).data = s.data ++ t.data := by
  cases s; cases t; rfl

/-- The executable `Rat.floor` agrees with `Int.floor` on `ℚ`. -/
theorem rat_floor_eq (q : ℚ) : Rat.floor q = ⌊q⌋ := by
  rw [Rat.floor_def', Rat.floor_def]

/-- `pyRound` returns a nearest integer: the distance to the argument is at
most one half. -/
theorem pyRound_dist (q : ℚ) : |((pyRound q : ℤ) : ℚ) - q| ≤ 1/2 := by
  have h0 : ((⌊q⌋ : ℤ) : ℚ) ≤ q := Int.floor_le q
  have h1 : q < ⌊q⌋ + 1 := Int.lt_floor_add_one q
  simp only [pyRound, rat_floor_eq]
  split_ifs with ha hb hc <;> rw [abs_le] <;> constructor <;> push_cast <;> linarith

/-- `pyRound1` returns a nearest multiple of one tenth: the distance to the
argument is at most one twentieth. -/
theorem pyRound1_dist (q : ℚ) : |pyRound1 q - q| ≤ 1/20 := by
  have h := pyRound_dist (q * 10)
  rw [abs_le] at h ⊢
  obtain ⟨h1, h2⟩ := h
  unfold pyRound1
  constructor <;> linarith

/-- A successful current-weather normalization is the assembly of extracted
fields. -/
theorem normalizeCurrent_shape {d j : Json} (h : normalizeCurrent d = some j) :
    ∃ f, extractCurrent d = some f ∧ j = buildCurrent f := by
  obtain ⟨f, hf, hj⟩ := Option.map_eq_some'.mp h
  exact ⟨f, hf, hj.symm⟩

/-- A successful forecast-interval normalization is the assembly of extracted
fields. -/
theorem normalizeItem_shape {d j : Json} (h : normalizeItem d = some j) :
    ∃ f, extractItem d = some f ∧ j = buildItem f := by
  obtain ⟨f, hf, hj⟩ := Option.map_eq_some'.mp h
  exact ⟨f, hf, hj.symm⟩

/-- Every normalized current-weather payload is truthy (a non-empty dict), so
a cached copy of it is returned on a later cache hit. -/
theorem normalizeCurrent_truthy {d j : Json} (h : normalizeCurrent d = some j) :
    j.truthy = true := by
  obtain ⟨f, -, rfl⟩ := normalizeCurrent_shape h
  rfl

/-- If the upstream-call flag of `getCurrent` is set, validation passed and
the result is that of `fetchCurrent` on the derived cache key. -/
theorem getCurrent_reaches_fetch {p : Option String} {c : List CacheEntry}
    {now : Nat} {up : UpstreamResult}
    (h : (getCurrent p c now up).2.2 = true) :
    pyStrip (p.getD ("")) ≠ "" ∧
      getCurrent p c now up
        = fetchCurrent (pyStrip (p.getD ("")))
            (currentKey (pyStrip (p.getD ("")))) c now up := by
  by_cases hc : pyStrip (p.getD ("")) = ""
  · simp [getCurrent, hc] at h
  · refine ⟨hc, ?_⟩
    simp only [getCurrent, if_neg hc]
    cases hg : cacheGet c now (currentKey (pyStrip (p.getD ("")))) with
    | none => rfl
    | some cached =>
      by_cases ht : cached.truthy = true
      · exfalso
        simp [getCurrent, hc, hg, ht] at h
      · simp [ht]

/-- If the upstream-call flag of `getForecast` is set, validation passed and
the result is that of `fetchForecast` on the derived cache key. -/
theorem getForecast_reaches_fetch {p : Option String} {c : List CacheEntry}
    {now : Nat} {up : UpstreamResult}
    (h : (getForecast p c now up).2.2 = true) :
    pyStrip (p.getD ("")) ≠ "" ∧
      getForecast p c now up
        = fetchForecast (pyStrip (p.getD ("")))
            (forecastKey (pyStrip (p.getD ("")))) c now up := by
  by_cases hc : pyStrip (p.getD ("")) = ""
  · simp [getForecast, hc] at h
  · refine ⟨hc, ?_⟩
    simp only [getForecast, if_neg hc]
    cases hg : cacheGet c now (forecastKey (pyStrip (p.getD ("")))) with
    | none => rfl
    | some cached =>
      by_cases ht : cached.truthy = true
      · exfalso
        simp [getForecast, hc, hg, ht] at h
      · simp [ht]

/-! ### Claims -/

/-- C1 (counterexample): for the concrete city London, an upstream network
failure during the forecast fetch is answered with HTTP 500 and the generic
message, not the 503 NetworkError that `getCurrent` produces on the same
input, so the forecast error taxonomy is not identical to the current one. -/
theorem forecast_network_not_503 :
    (getForecast (some ("London")) [] 0 UpstreamResult.networkError).1.status = 500
    ∧ (getForecast (some ("London")) [] 0 UpstreamResult.networkError).1.status ≠ 503
    ∧ (getForecast (some ("London")) [] 0 UpstreamResult.networkError).1.body
        = errBody ("An unexpected error occurred")
    ∧ (getCurrent (some ("London")) [] 0 UpstreamResult.networkError).1.status = 503 := by
  refine ⟨rfl, by decide, rfl, rfl⟩

/-- C1 (amended): whenever a forecast request reaches the upstream call, a
network failure yields the generic InternalError response with HTTP 500
(`ForecastWeatherView` has no `RequestException` handler), whereas a current
request reaching the upstream call yields NetworkError with HTTP 503. -/
theorem forecast_network_error_taxonomy (p : Option String) (c : List CacheEntry) (now : Nat) :
    ((getForecast p c now UpstreamResult.networkError).2.2 = true →
      (getForecast p c now UpstreamResult.networkError).1.status = 500
      ∧ (getForecast p c now UpstreamResult.networkError).1.body
          = errBody ("An unexpected error occurred"))
    ∧ ((getCurrent p c now UpstreamResult.networkError).2.2 = true →
      (getCurrent p c now UpstreamResult.networkError).1.status = 503
      ∧ (getCurrent p c now UpstreamResult.networkError).1.body
          = errBody ("Network error. Please check your connection.")) := by
  constructor
  · intro h
    obtain ⟨-, heq⟩ := getForecast_reaches_fetch h
    rw [heq]
    exact ⟨rfl, rfl⟩
  · intro h
    obtain ⟨-, heq⟩ := getCurrent_reaches_fetch h
    rw [heq]
    exact ⟨rfl, rfl⟩

/-- C1 witness: the amended statement applied at the concrete input London. -/
theorem forecast_network_error_taxonomy_witness :
    (getForecast (some ("London")) [] 0 UpstreamResult.networkError).2.2 = true
    ∧ (getForecast (some ("London")) [] 0 UpstreamResult.networkError).1.status = 500
    ∧ (getCurrent (some ("London")) [] 0 UpstreamResult.networkError).1.status = 503 :=
  ⟨rfl, ((forecast_network_error_taxonomy (some ("London")) [] 0).1 rfl).1,
    ((forecast_network_error_taxonomy (some ("London")) [] 0).2 rfl).1⟩

/-- C4: a city parameter that is empty or whitespace-only after stripping is
rejected by both views with the 400 ValidationError response; the cache is
returned unchanged, the upstream-call flag is false, and the response does not
depend on the cache contents, the clock or the upstream behaviour. -/
theorem blank_city_validation (p : Option String) (c : List CacheEntry)
    (now : Nat) (up : UpstreamResult)
    (h : pyStrip (p.getD ("")) = "") :
    getCurrent p c now up = (⟨400, errBody ("City parameter is required")⟩, c, false)
    ∧ getForecast p c now up = (⟨400, errBody ("City parameter is required")⟩, c, false) := by
  constructor <;> simp [getCurrent, getForecast, h]

/-- C4 witness: the validation theorem applied at a whitespace-only city. -/
theorem blank_city_validation_witness :
    pyStrip ((some ("   ")).getD ("")) = ""
    ∧ getCurrent (some ("   ")) [] 0 UpstreamResult.timeout
        = (⟨400, errBody ("City parameter is required")⟩, [], false) :=
  ⟨by decide, (blank_city_validation (some ("   ")) [] 0 UpstreamResult.timeout (by decide)).1⟩

/-- C5: cache keys are case-insensitive in the city (two cities with the same
lower-casing yield the same key, for each mode) and the two modes' key
namespaces never collide (a current key never equals a forecast key, for any
pair of cities). -/
theorem cache_key_insensitive_and_namespaced (c1 c2 : String) :
    (c1.data.map Char.toLower = c2.data.map Char.toLower →
      currentKey c1 = currentKey c2 ∧ forecastKey c1 = forecastKey c2)
    ∧ currentKey c1 ≠ forecastKey c2 := by
  constructor
  · intro h
    have hl : pyLower c1 = pyLower c2 := congrArg String.mk h
    constructor
    · rw [currentKey, currentKey, hl]
    · rw [forecastKey, forecastKey, hl]
  · intro h
    have hd := congrArg String.data h
    rw [currentKey, forecastKey, stringData_append, stringData_append] at hd
    have h8 := congrArg (fun l => l[8]?) hd
    simp only at h8
    rw [List.getElem?_append_left (by decide), List.getElem?_append_left (by decide)] at h8
    exact absurd h8 (by decide)

/-- C5 witness: the key theorem applied at concrete cities. -/
theorem cache_key_insensitive_and_namespaced_witness :
    currentKey ("LONdon") = currentKey ("london")
    ∧ currentKey ("paris") ≠ forecastKey ("paris") :=
  ⟨((cache_key_insensitive_and_namespaced ("LONdon") ("london")).1 (by decide)).1,
    (cache_key_insensitive_and_namespaced ("paris") ("paris")).2⟩

/-- C10: a request without a `city` query parameter behaves exactly like one
with an empty city string: both views produce the same 400 ValidationError
response with no cache change and no upstream call. -/
theorem missing_city_param_defaults (c : List CacheEntry) (now : Nat) (up : UpstreamResult) :
    getCurrent none c now up = getCurrent (some ("")) c now up
    ∧ getForecast none c now up = getForecast (some ("")) c now up
    ∧ getCurrent none c now up = (⟨400, errBody ("City parameter is required")⟩, c, false)
    ∧ getForecast none c now up = (⟨400, errBody ("City parameter is required")⟩, c, false) :=
  ⟨rfl, rfl, rfl, rfl⟩

/-- Cache behaviour of `fetchCurrent`: the cache is unchanged except on a 200
response that normalizes, where exactly the response body is stored under the
given key with expiry `now + 1800`. -/
theorem fetchCurrent_cache_write (city key : String) (c : List CacheEntry)
    (now : Nat) (up : UpstreamResult) :
    (fetchCurrent city key c now up).2.1 = c
    ∨ ((fetchCurrent city key c now up).1.status = 200
       ∧ (fetchCurrent city key c now up).2.1
           = ⟨key, (fetchCurrent city key c now up).1.body, now + 1800⟩ :: c) := by
  cases up with
  | timeout => exact Or.inl rfl
  | networkError => exact Or.inl rfl
  | response st body =>
    by_cases h200 : st = 200
    · subst h200
      cases hn : normalizeCurrent body with
      | none => left; simp [fetchCurrent, hn]
      | some payload => right; constructor <;> simp [fetchCurrent, hn, cacheSet]
    · left
      by_cases h404 : st = 404 <;> simp [fetchCurrent, h200, h404]

/-- Cache behaviour of `fetchForecast`: same as `fetchCurrent_cache_write`. -/
theorem fetchForecast_cache_write (city key : String) (c : List CacheEntry)
    (now : Nat) (up : UpstreamResult) :
    (fetchForecast city key c now up).2.1 = c
    ∨ ((fetchForecast city key c now up).1.status = 200
       ∧ (fetchForecast city key c now up).2.1
           = ⟨key, (fetchForecast city key c now up).1.body, now + 1800⟩ :: c) := by
  cases up with
  | timeout => exact Or.inl rfl
  | networkError => exact Or.inl rfl
  | response st body =>
    by_cases h200 : st = 200
    · subst h200
      cases hn : normalizeForecast body with
      | none => left; simp [fetchForecast, hn]
      | some payload => right; constructor <;> simp [fetchForecast, hn, cacheSet]
    · left
      by_cases h404 : st = 404 <;> simp [fetchForecast, h200, h404]

/-- C3: neither view ever writes to the cache on an error outcome; the cache
after a call is either unchanged, or — exactly when the response status is
200 via a fresh upstream fetch — extended with the normalized response body
under the derived key with TTL expiry `now + 1800`. -/
theorem cache_write_only_on_success (p : Option String) (c : List CacheEntry)
    (now : Nat) (up : UpstreamResult) :
    ((getCurrent p c now up).2.1 = c
      ∨ ((getCurrent p c now up).1.status = 200
         ∧ (getCurrent p c now up).2.1
             = ⟨currentKey (pyStrip (p.getD (""))), (getCurrent p c now up).1.body,
                 now + 1800⟩ :: c))
    ∧ ((getForecast p c now up).2.1 = c
      ∨ ((getForecast p c now up).1.status = 200
         ∧ (getForecast p c now up).2.1
             = ⟨forecastKey (pyStrip (p.getD (""))), (getForecast p c now up).1.body,
                 now + 1800⟩ :: c)) := by
  constructor
  · by_cases hc : pyStrip (p.getD ("")) = ""
    · left; simp [getCurrent, hc]
    · simp only [getCurrent, if_neg hc]
      cases hg : cacheGet c now (currentKey (pyStrip (p.getD ("")))) with
      | some cached =>
        by_cases ht : cached.truthy = true
        · left; simp [ht]
        · simp only [ht, Bool.false_eq_true, if_false]
          exact fetchCurrent_cache_write _ _ _ _ _
      | none => exact fetchCurrent_cache_write _ _ _ _ _
  · by_cases hc : pyStrip (p.getD ("")) = ""
    · left; simp [getForecast, hc]
    · simp only [getForecast, if_neg hc]
      cases hg : cacheGet c now (forecastKey (pyStrip (p.getD ("")))) with
      | some cached =>
        by_cases ht : cached.truthy = true
        · left; simp [ht]
        · simp only [ht, Bool.false_eq_true, if_false]
          exact fetchForecast_cache_write _ _ _ _ _
      | none => exact fetchForecast_cache_write _ _ _ _ _

/-- Status of `fetchCurrent` always belongs to the error taxonomy. -/
theorem fetchCurrent_status_mem (city key : String) (c : List CacheEntry)
    (now : Nat) (up : UpstreamResult) :
    (fetchCurrent city key c now up).1.status ∈ taxonomyStatuses := by
  cases up with
  | timeout => simp [fetchCurrent, taxonomyStatuses]
  | networkError => simp [fetchCurrent, taxonomyStatuses]
  | response st body =>
    by_cases h200 : st = 200
    · subst h200
      cases hn : normalizeCurrent body with
      | none => simp [fetchCurrent, hn, taxonomyStatuses]
      | some payload => simp [fetchCurrent, hn, taxonomyStatuses]
    · by_cases h404 : st = 404 <;> simp [fetchCurrent, h200, h404, taxonomyStatuses]

/-- Status of `fetchForecast` always belongs to the error taxonomy. -/
theorem fetchForecast_status_mem (city key : String) (c : List CacheEntry)
    (now : Nat) (up : UpstreamResult) :
    (fetchForecast city key c now up).1.status ∈ taxonomyStatuses := by
  cases up with
  | timeout => simp [fetchForecast, taxonomyStatuses]
  | networkError => simp [fetchForecast, taxonomyStatuses]
  | response st body =>
    by_cases h200 : st = 200
    · subst h200
      cases hn : normalizeForecast body with
      | none => simp [fetchForecast, hn, taxonomyStatuses]
      | some payload => simp [fetchForecast, hn, taxonomyStatuses]
    · by_cases h404 : st = 404 <;> simp [fetchForecast, h200, h404, taxonomyStatuses]

/-- C9: both views are total functions into the response taxonomy — every
execution, for every upstream outcome, produces a response whose status is one
of 200/400/404/408/500/503 (no raw exception crosses the boundary), and in
particular a 200 upstream body missing expected fields (here the empty JSON
object) yields the 500 InternalError response in both views. -/
theorem no_unconverted_failure (p : Option String) (c : List CacheEntry)
    (now : Nat) (up : UpstreamResult) :
    (getCurrent p c now up).1.status ∈ taxonomyStatuses
    ∧ (getForecast p c now up).1.status ∈ taxonomyStatuses
    ∧ (getCurrent (some ("London")) [] 0 (UpstreamResult.response 200 (Json.obj []))).1
        = ⟨500, errBody ("An unexpected error occurred")⟩
    ∧ (getForecast (some ("London")) [] 0 (UpstreamResult.response 200 (Json.obj []))).1
        = ⟨500, errBody ("An unexpected error occurred")⟩ := by
  refine ⟨?_, ?_, rfl, rfl⟩
  · by_cases hc : pyStrip (p.getD ("")) = ""
    · simp [getCurrent, hc, taxonomyStatuses]
    · simp only [getCurrent, if_neg hc]
      cases hg : cacheGet c now (currentKey (pyStrip (p.getD ("")))) with
      | some cached =>
        by_cases ht : cached.truthy = true
        · simp [ht, taxonomyStatuses]
        · simp only [ht, Bool.false_eq_true, if_false]
          exact fetchCurrent_status_mem _ _ _ _ _
      | none => exact fetchCurrent_status_mem _ _ _ _ _
  · by_cases hc : pyStrip (p.getD ("")) = ""
    · simp [getForecast, hc, taxonomyStatuses]
    · simp only [getForecast, if_neg hc]
      cases hg : cacheGet c now (forecastKey (pyStrip (p.getD ("")))) with
      | some cached =>
        by_cases ht : cached.truthy = true
        · simp [ht, taxonomyStatuses]
        · simp only [ht, Bool.false_eq_true, if_false]
          exact fetchForecast_status_mem _ _ _ _ _
      | none => exact fetchForecast_status_mem _ _ _ _ _

/-- C2 (counterexample): on a forecast interval whose upstream JSON carries
both `wind.deg` and `visibility`, the normalized entry succeeds but contains
neither a `wind_deg` nor a `visibility` field — contradicting the claim that
each entry has the CurrentWeather per-interval fields (which include
`wind_deg` and `visibility`, defaulted to 0). -/
theorem forecast_item_omits_wind_deg :
    (normalizeItem itemSample).isSome = true
    ∧ (normalizeItem itemSample).bind (fun x => x.getMem? ("wind_deg")) = none
    ∧ (normalizeItem itemSample).bind (fun x => x.getMem? ("visibility")) = none :=
  ⟨rfl, rfl, rfl⟩

/-- C2 (amended): every normalized forecast interval entry has exactly the
keys datetime, date_text, temperature, feels_like, temp_min, temp_max,
humidity, pressure, description, main, icon, wind_speed, clouds, pop — the
CurrentWeather per-interval fields minus sunrise/sunset/timezone and also
minus `wind_deg` and `visibility` (which forecast entries omit entirely),
plus the precipitation probability `pop`. -/
theorem forecast_item_fields (item j : Json) (h : normalizeItem item = some j) :
    j.keys = ["datetime", "date_text", "temperature", "feels_like", "temp_min",
              "temp_max", "humidity", "pressure", "description", "main", "icon",
              "wind_speed", "clouds", "pop"]
    ∧ j.getMem? ("wind_deg") = none
    ∧ j.getMem? ("visibility") = none := by
  obtain ⟨f, -, rfl⟩ := normalizeItem_shape h
  exact ⟨rfl, rfl, rfl⟩

/-- C2 witness: the amended field list at the concrete interval fixture. -/
theorem forecast_item_fields_witness :
    normalizeItem itemSample = some (buildItem itemSampleFields)
    ∧ (buildItem itemSampleFields).keys
        = ["datetime", "date_text", "temperature", "feels_like", "temp_min",
           "temp_max", "humidity", "pressure", "description", "main", "icon",
           "wind_speed", "clouds", "pop"] :=
  ⟨rfl, (forecast_item_fields itemSample (buildItem itemSampleFields) rfl).1⟩

/-- C7: rounding rules of the normalization.  `pyRound` (used for the four
temperature fields) returns an integer at distance at most 1/2 (nearest
integer); `pyRound1` (used for wind speed) returns a multiple of 0.1 at
distance at most 1/20; concretely 15.6 rounds to 16 and 3.47 to 3.5, and
these values appear in the normalized payloads; the forecast precipitation
probability is the upstream fraction times 100 (0.42 becomes 42) and defaults
to 0 when the `pop` key is absent upstream. -/
theorem rounding_rules :
    (∀ q : ℚ, |((pyRound q : ℤ) : ℚ) - q| ≤ 1/2)
    ∧ (∀ q : ℚ, |pyRound1 q - q| ≤ 1/20)
    ∧ pyRound (156/10) = 16
    ∧ pyRound1 (347/100) = 35/10
    ∧ (∀ f : ItemFields, (buildItem f).getMem? ("pop") = some (Json.num (f.pop * 100)))
    ∧ (normalizeCurrent currentSample).bind (fun x => x.getMem? ("temperature"))
        = some (Json.num 16)
    ∧ (normalizeCurrent currentSample).bind (fun x => x.getMem? ("wind_speed"))
        = some (Json.num (35/10))
    ∧ (normalizeItem itemSample).bind (fun x => x.getMem? ("pop"))
        = some (Json.num 42)
    ∧ (normalizeItem itemSampleNoPop).bind (fun x => x.getMem? ("pop"))
        = some (Json.num 0) :=
  ⟨pyRound_dist, pyRound1_dist,
   by with_unfolding_all decide, by with_unfolding_all decide,
   fun f => rfl,
   by with_unfolding_all rfl, by with_unfolding_all rfl,
   by with_unfolding_all rfl, by with_unfolding_all rfl⟩

/-- Unfolding of the interval loop on a cons cell. -/
theorem normalizeItems_cons (a : Json) (t : List Json) :
    normalizeItems (a :: t)
      = (normalizeItem a).bind (fun j => (normalizeItems t).bind (fun r => some (j :: r))) := rfl

/-- The interval loop produces one output entry per input entry. -/
theorem normalizeItems_length : ∀ {l r : List Json}, normalizeItems l = some r →
    r.length = l.length := by
  intro l
  induction l with
  | nil =>
    intro r h
    simp only [normalizeItems, Option.some_inj] at h
    subst h
    rfl
  | cons a t ih =>
    intro r h
    rw [normalizeItems_cons] at h
    obtain ⟨j, hj, h2⟩ := Option.bind_eq_some.mp h
    obtain ⟨rt, hrt, h3⟩ := Option.bind_eq_some.mp h2
    cases Option.some_inj.mp h3
    simp [ih hrt]

/-- The interval loop maps each input entry to the output entry at the same
position. -/
theorem normalizeItems_get : ∀ {l r : List Json}, normalizeItems l = some r →
    ∀ (i : Nat) (h1 : i < l.length) (h2 : i < r.length),
      normalizeItem (l.get ⟨i, h1⟩) = some (r.get ⟨i, h2⟩) := by
  intro l
  induction l with
  | nil =>
    intro r h i h1 h2
    exact absurd h1 (by simp)
  | cons a t ih =>
    intro r h i h1 h2
    rw [normalizeItems_cons] at h
    obtain ⟨j, hj, h2b⟩ := Option.bind_eq_some.mp h
    obtain ⟨rt, hrt, h3⟩ := Option.bind_eq_some.mp h2b
    cases Option.some_inj.mp h3
    cases i with
    | zero => exact hj
    | succ n =>
      simp only [List.length_cons] at h1 h2
      exact ih hrt n (by omega) (by omega)

/-- The forecast normalization written as an explicit chain of binds,
mirroring the source's access order: the interval loop first, then the city
metadata. -/
theorem normalizeForecast_eq (body : Json) :
    normalizeForecast body
      = (body.getMem? ("list")).bind (fun x => (x.asArr?).bind (fun items =>
          (normalizeItems items).bind (fun forecasts =>
          (body.getMem? ("city")).bind (fun cityObj =>
          (cityObj.getMem? ("name")).bind (fun name =>
          (cityObj.getMem? ("country")).bind (fun country =>
          (cityObj.getMem? ("coord")).bind (fun coord =>
          (coord.getMem? ("lat")).bind (fun lat =>
          (coord.getMem? ("lon")).bind (fun lon =>
          some (Json.obj [
            ("success", Json.bool true),
            ("city", name),
            ("country", country),
            ("coordinates", Json.obj [("lat", lat), ("lon", lon)]),
            ("forecasts", Json.arr forecasts)])))))))))) := rfl

/-- A successful forecast normalization whose upstream body lists `items`
contains exactly the output of the interval loop under `forecasts`. -/
theorem normalizeForecast_forecasts {body payload : Json} {items : List Json}
    (hlist : body.getMem? ("list") = some (Json.arr items))
    (h : normalizeForecast body = some payload) :
    ∃ fs, normalizeItems items = some fs
      ∧ payload.getMem? ("forecasts") = some (Json.arr fs) := by
  rw [normalizeForecast_eq, hlist] at h
  simp only [Option.some_bind, Json.asArr?] at h
  obtain ⟨fs, hfs, h⟩ := Option.bind_eq_some.mp h
  obtain ⟨cityObj, hcity, h⟩ := Option.bind_eq_some.mp h
  obtain ⟨name, hname, h⟩ := Option.bind_eq_some.mp h
  obtain ⟨country, hcountry, h⟩ := Option.bind_eq_some.mp h
  obtain ⟨coord, hcoord, h⟩ := Option.bind_eq_some.mp h
  obtain ⟨lat, hlat, h⟩ := Option.bind_eq_some.mp h
  obtain ⟨lon, hlon, h⟩ := Option.bind_eq_some.mp h
  cases Option.some_inj.mp h
  exact ⟨fs, hfs, rfl⟩

/-- C8: whenever `getForecast` succeeds through a fresh upstream 200 response
whose body carries the interval list `items`, the response body's `forecasts`
list has exactly one entry per upstream interval, in upstream order: its
length equals the length of `items` and the entry at each position `i` is the
normalization of the upstream interval at position `i`. -/
theorem getForecast_interval_bijection (p : Option String) (c : List CacheEntry)
    (now : Nat) (body : Json) (items : List Json)
    (hlist : body.getMem? ("list") = some (Json.arr items))
    (hflag : (getForecast p c now (UpstreamResult.response 200 body)).2.2 = true)
    (h200 : (getForecast p c now (UpstreamResult.response 200 body)).1.status = 200) :
    ∃ fs : List Json,
      (getForecast p c now (UpstreamResult.response 200 body)).1.body.getMem? ("forecasts")
          = some (Json.arr fs)
      ∧ fs.length = items.length
      ∧ ∀ (i : Nat) (h1 : i < items.length) (h2 : i < fs.length),
          normalizeItem (items.get ⟨i, h1⟩) = some (fs.get ⟨i, h2⟩) := by
  obtain ⟨hne, heq⟩ := getForecast_reaches_fetch hflag
  rw [heq] at h200 ⊢
  cases hn : normalizeForecast body with
  | none => simp [fetchForecast, hn] at h200
  | some payload =>
    obtain ⟨fs, hfs, hmem⟩ := normalizeForecast_forecasts hlist hn
    refine ⟨fs, ?_, normalizeItems_length hfs, normalizeItems_get hfs⟩
    simpa [fetchForecast, hn] using hmem

/-- C8 witness: 40 upstream interval entries yield exactly 40 forecast
entries in upstream order. -/
theorem getForecast_interval_bijection_witness :
    forecastSample.getMem? ("list") = some (Json.arr (List.replicate 40 itemSample))
    ∧ (getForecast (some ("Paris")) [] 0 (UpstreamResult.response 200 forecastSample)).2.2 = true
    ∧ (getForecast (some ("Paris")) [] 0 (UpstreamResult.response 200 forecastSample)).1.status = 200
    ∧ (List.replicate 40 itemSample).length = 40
    ∧ ∃ fs : List Json,
        (getForecast (some ("Paris")) [] 0
            (UpstreamResult.response 200 forecastSample)).1.body.getMem? ("forecasts")
            = some (Json.arr fs)
        ∧ fs.length = (List.replicate 40 itemSample).length
        ∧ ∀ (i : Nat) (h1 : i < (List.replicate 40 itemSample).length) (h2 : i < fs.length),
            normalizeItem ((List.replicate 40 itemSample).get ⟨i, h1⟩) = some (fs.get ⟨i, h2⟩) :=
  ⟨rfl, rfl, rfl, rfl,
    getForecast_interval_bijection (some ("Paris")) [] 0 forecastSample
      (List.replicate 40 itemSample) rfl rfl rfl⟩

/-- A 200 result of `fetchCurrent` comes from a 200 upstream response whose
body normalizes; the normalized payload is returned and stored under the key
with expiry `now + 1800`. -/
theorem fetchCurrent_success {city key : String} {c : List CacheEntry}
    {now : Nat} {up : UpstreamResult}
    (h200 : (fetchCurrent city key c now up).1.status = 200) :
    ∃ body payload, up = UpstreamResult.response 200 body
      ∧ normalizeCurrent body = some payload
      ∧ fetchCurrent city key c now up
          = (⟨200, payload⟩, ⟨key, payload, now + 1800⟩ :: c, true) := by
  cases up with
  | timeout => simp [fetchCurrent] at h200
  | networkError => simp [fetchCurrent] at h200
  | response st body =>
    by_cases h2 : st = 200
    · subst h2
      cases hn : normalizeCurrent body with
      | none => simp [fetchCurrent, hn] at h200
      | some payload =>
        exact ⟨body, payload, rfl, hn, by simp [fetchCurrent, hn, cacheSet]⟩
    · by_cases h4 : st = 404
      · simp [fetchCurrent, h2, h4] at h200
      · simp [fetchCurrent, h2, h4] at h200

/-- C6: if a `getCurrent` call for `city` succeeds through a fresh upstream
fetch (status 200 with the upstream-call flag set), then any repeated call
for the same city in any letter case, against the resulting cache and at any
instant before the entry's TTL expiry, returns exactly the stored normalized
payload with status 200, leaves the cache unchanged, and does not issue a
second upstream call — whatever the upstream would do on that second call. -/
theorem getCurrent_cached_idempotent (city city2 : String) (c : List CacheEntry)
    (now now2 : Nat) (up up2 : UpstreamResult)
    (h200 : (getCurrent (some city) c now up).1.status = 200)
    (hcall : (getCurrent (some city) c now up).2.2 = true)
    (hcase : pyLower (pyStrip city2) = pyLower (pyStrip city))
    (hne2 : pyStrip city2 ≠ "")
    (httl : now2 < now + 1800) :
    getCurrent (some city2) (getCurrent (some city) c now up).2.1 now2 up2
      = (⟨200, (getCurrent (some city) c now up).1.body⟩,
         (getCurrent (some city) c now up).2.1, false) := by
  obtain ⟨hne, heq⟩ := getCurrent_reaches_fetch hcall
  simp only [Option.getD_some] at hne heq
  rw [heq] at h200 ⊢
  obtain ⟨body, payload, hup, hn, hfe⟩ := fetchCurrent_success h200
  rw [hfe]
  have hkey : currentKey (pyStrip city2) = currentKey (pyStrip city) := by
    rw [currentKey, currentKey, hcase]
  have hfind :
      (⟨currentKey (pyStrip city), payload, now + 1800⟩ :: c).find?
          (fun e => e.key == currentKey (pyStrip city2))
        = some ⟨currentKey (pyStrip city), payload, now + 1800⟩ :=
    List.find?_cons_of_pos _ (by simp [hkey])
  have hget : cacheGet (⟨currentKey (pyStrip city), payload, now + 1800⟩ :: c)
      now2 (currentKey (pyStrip city2)) = some payload := by
    simp only [cacheGet, hfind, if_pos httl]
  simp only [getCurrent, Option.getD_some, if_neg hne2, hget,
    normalizeCurrent_truthy hn, if_true]

/-- C6 witness: a successful London fetch followed by a LONDON request 100
seconds later returns the stored payload from the cache with no second
upstream call (the second upstream outcome is irrelevant — here a timeout). -/
theorem getCurrent_cached_idempotent_witness :
    (getCurrent (some ("London")) [] 0 (UpstreamResult.response 200 currentSample)).1.status = 200
    ∧ (getCurrent (some ("London")) [] 0 (UpstreamResult.response 200 currentSample)).2.2 = true
    ∧ pyLower (pyStrip ("LONDON")) = pyLower (pyStrip ("London"))
    ∧ pyStrip ("LONDON") ≠ ""
    ∧ (100 : Nat) < 0 + 1800
    ∧ getCurrent (some ("LONDON"))
        (getCurrent (some ("London")) [] 0 (UpstreamResult.response 200 currentSample)).2.1
        100 UpstreamResult.timeout
        = (⟨200, (getCurrent (some ("London")) [] 0
              (UpstreamResult.response 200 currentSample)).1.body⟩,
           (getCurrent (some ("London")) [] 0
              (UpstreamResult.response 200 currentSample)).2.1, false) :=
  ⟨by with_unfolding_all rfl, rfl, rfl, by decide, by decide,
    getCurrent_cached_idempotent ("London") ("LONDON") [] 0 100
      (UpstreamResult.response 200 currentSample) UpstreamResult.timeout
      (by with_unfolding_all rfl) rfl rfl (by decide) (by decide)⟩
